import Mathlib

/-!
Verification of the OpenGPU assembler (`sw/assembler/opengpu_asm.py`).

The Python source is shallowly embedded below: dictionaries become
association lists, raised exceptions become `Except` errors, Python's
arbitrary-precision integers become `Nat`/`Int` (with explicit `% 2^w`
where the source masks with `& 0xFFFF` etc.), and Python strings become
`List Char` processed by structurally recursive models of the string
methods used by the source (`split`, `strip`, `upper`, `join`,
`startswith`, `replace`, `in`).  The two passes become structurally
recursive functions over the list of source lines.
-/

/-- Shorthand used to write Python string literals as character lists. -/
def tl (s : String) : List Char := s.toList

instance exceptDecEq {ε α : Type} [DecidableEq ε] [DecidableEq α] :
    DecidableEq (Except ε α)
  | Except.ok a, Except.ok b =>
    if h : a = b then Decidable.isTrue (congrArg Except.ok h)
    else Decidable.isFalse (fun hh => h (Except.ok.inj hh))
  | Except.error a, Except.error b =>
    if h : a = b then Decidable.isTrue (congrArg Except.error h)
    else Decidable.isFalse (fun hh => h (Except.error.inj hh))
  | Except.ok _, Except.error _ => Decidable.isFalse (fun hh => Except.noConfusion hh)
  | Except.error _, Except.ok _ => Decidable.isFalse (fun hh => Except.noConfusion hh)

/-- Python `str.isspace` characters relevant to `strip`/`split()`. -/
def isSpace (c : Char) : Bool :=
  c = ' ' || c = '\t' || c = '\n' || c = '\r' || c = '\x0b' || c = '\x0c'

/-- Python `s.strip()`. -/
def pyStrip (s : List Char) : List Char :=
  ((s.dropWhile isSpace).reverse.dropWhile isSpace).reverse

/-- Python `s.upper()` (ASCII). -/
def pyUpper (s : List Char) : List Char := s.map Char.toUpper

def splitPredGo (p : Char → Bool) : List Char → List Char → List (List Char)
  | [], acc => [acc.reverse]
  | x :: xs, acc =>
    if p x then acc.reverse :: splitPredGo p xs [] else splitPredGo p xs (x :: acc)

/-- Split at every character satisfying `p`, keeping empty pieces. -/
def splitPred (p : Char → Bool) (s : List Char) : List (List Char) :=
  splitPredGo p s []

/-- Python `s.split(c)` for a single-character separator. -/
def splitOnChar (c : Char) (s : List Char) : List (List Char) :=
  splitPred (fun x => x = c) s

/-- Python `s.split()`: split on whitespace runs, dropping empty pieces. -/
def splitWs (s : List Char) : List (List Char) :=
  (splitPred isSpace s).filter (fun t => ¬ t.isEmpty)

/-- Errors raised by the assembler.  Each constructor mirrors one `raise`
site of the Python source (the message string's varying part is the
argument); `indexOutOfRange` models Python's `IndexError` from a
positional `operands[i]` access past the end of the operand list. -/
inductive AsmError where
  | unknownRegister (s : List Char)        -- "Unknown register: {s}"
  | cannotParseImmediate (s : List Char)   -- "Cannot parse immediate: {s}"
  | invalidMemoryOperand (s : List Char)   -- "Invalid memory operand: {s}"
  | liImmediateTooLarge (i : Int)          -- "LI immediate too large: {i}"
  | unknownInstruction (s : List Char)     -- "Unknown instruction: {s}"
  | unhandledInstruction (s : List Char)   -- "Unhandled instruction: {s}"
  | indexOutOfRange (i : Nat)              -- Python IndexError from operands[i]
  deriving DecidableEq

/-- `self.labels`: a dict from label name to address (insertion = cons,
lookup takes the most recent binding, matching dict overwrite). -/
abbrev LabelMap := List (List Char × Nat)

/-- Diagnostic produced by `second_pass`: 1-based line number, the line
text as printed by the error handler, and the underlying error. -/
abbrev Diag := Nat × List Char × AsmError

/-- The OPCODES dict.  Pseudo-instructions map to `none` (Python `None`). -/
def OPCODES : List (List Char × Option Nat) := [
  (tl "ADD", some 0x00), (tl "ADDI", some 0x01), (tl "SUB", some 0x02),
  (tl "MUL", some 0x03), (tl "MULH", some 0x04), (tl "DIV", some 0x05),
  (tl "DIVU", some 0x06), (tl "REM", some 0x07), (tl "REMU", some 0x08),
  (tl "AND", some 0x10), (tl "ANDI", some 0x11), (tl "OR", some 0x12),
  (tl "ORI", some 0x13), (tl "XOR", some 0x14), (tl "XORI", some 0x15),
  (tl "NOT", some 0x16),
  (tl "SLL", some 0x17), (tl "SLLI", some 0x18), (tl "SRL", some 0x19),
  (tl "SRLI", some 0x1A), (tl "SRA", some 0x1B), (tl "SRAI", some 0x1C),
  (tl "FADD", some 0x20), (tl "FSUB", some 0x21), (tl "FMUL", some 0x22),
  (tl "FDIV", some 0x23),
  (tl "FMADD", some 0x24), (tl "FMSUB", some 0x25), (tl "FSQRT", some 0x26),
  (tl "FABS", some 0x27), (tl "FNEG", some 0x28), (tl "FMIN", some 0x29),
  (tl "FMAX", some 0x2A),
  (tl "FCVTWS", some 0x2B), (tl "FCVTSW", some 0x2C),
  (tl "FCMPEQ", some 0x2D), (tl "FCMPLT", some 0x2E), (tl "FCMPLE", some 0x2F),
  (tl "SLT", some 0x40), (tl "SLTI", some 0x41), (tl "SLTU", some 0x42),
  (tl "SLTIU", some 0x43), (tl "SEQ", some 0x44), (tl "SNE", some 0x45),
  (tl "SGE", some 0x46), (tl "SGEU", some 0x47),
  (tl "LW", some 0x30), (tl "LH", some 0x31), (tl "LHU", some 0x32),
  (tl "LB", some 0x33), (tl "LBU", some 0x34), (tl "SW", some 0x35),
  (tl "SH", some 0x36), (tl "SB", some 0x37),
  (tl "BEQ", some 0x50), (tl "BNE", some 0x51), (tl "BLT", some 0x52),
  (tl "BGE", some 0x53), (tl "BLTU", some 0x54), (tl "BGEU", some 0x55),
  (tl "JAL", some 0x56), (tl "JALR", some 0x57),
  (tl "RET", some 0x58),
  (tl "LUI", some 0x69), (tl "AUIPC", some 0x6A),
  (tl "NOP", none), (tl "MV", none), (tl "LI", none), (tl "J", none)]

def R_TYPE : List (List Char) := [tl "ADD", tl "SUB", tl "MUL", tl "MULH",
  tl "DIV", tl "DIVU", tl "REM", tl "REMU",
  tl "AND", tl "OR", tl "XOR", tl "NOT", tl "SLL", tl "SRL", tl "SRA",
  tl "SLT", tl "SLTU", tl "SEQ", tl "SNE", tl "SGE", tl "SGEU"]

def I_TYPE : List (List Char) := [tl "ADDI", tl "ANDI", tl "ORI", tl "XORI",
  tl "SLLI", tl "SRLI", tl "SRAI", tl "SLTI", tl "SLTIU", tl "JALR"]

def MEM_LOAD : List (List Char) := [tl "LW", tl "LH", tl "LHU", tl "LB", tl "LBU"]

def MEM_STORE : List (List Char) := [tl "SW", tl "SH", tl "SB"]

def B_TYPE : List (List Char) := [tl "BEQ", tl "BNE", tl "BLT", tl "BGE",
  tl "BLTU", tl "BGEU"]

def U_TYPE : List (List Char) := [tl "LUI", tl "AUIPC", tl "JAL"]

def CTRL_TYPE : List (List Char) := [tl "RET"]

def FPU_R2 : List (List Char) := [tl "FADD", tl "FSUB", tl "FMUL", tl "FDIV",
  tl "FMIN", tl "FMAX", tl "FCMPEQ", tl "FCMPLT", tl "FCMPLE"]

def FPU_R1 : List (List Char) := [tl "FABS", tl "FNEG", tl "FSQRT",
  tl "FCVTWS", tl "FCVTSW"]

def FPU_R3 : List (List Char) := [tl "FMADD", tl "FMSUB"]

/-- The REGISTERS dict (canonical names plus aliases). -/
def REGISTERS : List (List Char × Nat) := [
  (tl "X0", 0), (tl "ZERO", 0),
  (tl "X1", 1), (tl "THREADIDX", 1), (tl "TID", 1),
  (tl "X2", 2), (tl "BLOCKIDX", 2), (tl "BID", 2),
  (tl "X3", 3), (tl "BLOCKDIM", 3), (tl "BDIM", 3),
  (tl "X4", 4), (tl "GRIDDIM", 4), (tl "GDIM", 4),
  (tl "X5", 5), (tl "WARPIDX", 5), (tl "WID", 5),
  (tl "X6", 6), (tl "LANEIDX", 6), (tl "LID", 6),
  (tl "X7", 7), (tl "X8", 8), (tl "X9", 9), (tl "X10", 10), (tl "X11", 11),
  (tl "X12", 12), (tl "X13", 13), (tl "X14", 14), (tl "X15", 15), (tl "X16", 16),
  (tl "X17", 17), (tl "X18", 18), (tl "X19", 19), (tl "X20", 20), (tl "X21", 21),
  (tl "X22", 22), (tl "X23", 23), (tl "X24", 24), (tl "X25", 25), (tl "X26", 26),
  (tl "X27", 27), (tl "X28", 28), (tl "X29", 29), (tl "X30", 30), (tl "X31", 31),
  (tl "T0", 7), (tl "T1", 8), (tl "T2", 9), (tl "T3", 10), (tl "T4", 11),
  (tl "T5", 12), (tl "T6", 13), (tl "T7", 14), (tl "T8", 15)]

/-- `parse_register`: uppercase, strip, then dict lookup. -/
def parse_register (reg_str : List Char) : Except AsmError Nat :=
  let r := pyStrip (pyUpper reg_str)
  match REGISTERS.lookup r with
  | some v => Except.ok v
  | none => Except.error (AsmError.unknownRegister r)

/-- Value of a single ASCII digit character, as accepted by Python's
`int(s, base)` for bases up to 16. -/
def charVal (c : Char) : Option Nat :=
  if c.isDigit then some (c.toNat - 48)
  else if 'a' ≤ c ∧ c ≤ 'f' then some (c.toNat - 87)
  else if 'A' ≤ c ∧ c ≤ 'F' then some (c.toNat - 55)
  else none

def digitsValGo (base : Nat) : List Char → Nat → Option Nat
  | [], acc => some acc
  | c :: cs, acc =>
    match charVal c with
    | some v => if v < base then digitsValGo base cs (acc * base + v) else none
    | none => none

/-- Value of a nonempty run of digits in the given base (`none` on a bad
or empty digit string), as accepted by `int`. -/
def digitsVal (base : Nat) (cs : List Char) : Option Nat :=
  if cs.isEmpty then none else digitsValGo base cs 0

/-- Python `int(s)`: optional sign followed by decimal digits. -/
def int_dec (s : List Char) : Option Int :=
  match s with
  | '-' :: cs => (digitsVal 10 cs).map (fun n => -(n : Int))
  | '+' :: cs => (digitsVal 10 cs).map (fun n => (n : Int))
  | cs => (digitsVal 10 cs).map (fun n => (n : Int))

/-- Python `int(s, 16)` on a string known to start with `0x`/`0X`. -/
def int_hex (s : List Char) : Option Int :=
  (digitsVal 16 (s.drop 2)).map (fun n => (n : Int))

/-- Python `int(s, 2)` on a string known to start with `0b`/`0B`. -/
def int_bin (s : List Char) : Option Int :=
  (digitsVal 2 (s.drop 2)).map (fun n => (n : Int))

/-- The numeric-literal arm of `parse_immediate` (the `try` block). -/
def numeric_value (s : List Char) : Except AsmError Int :=
  let r :=
    if (tl "0x").isPrefixOf s || (tl "0X").isPrefixOf s then int_hex s
    else if (tl "0b").isPrefixOf s || (tl "0B").isPrefixOf s then int_bin s
    else int_dec s
  match r with
  | some v => Except.ok v
  | none => Except.error (AsmError.cannotParseImmediate s)

/-- `parse_immediate`: a label lookup (when a non-empty label table is
supplied and contains the stripped token) takes precedence over numeric
parsing; `relative` subtracts the current address. -/
def parse_immediate (imm_str : List Char) (labels : Option LabelMap)
    (current_addr : Nat) (relative : Bool) : Except AsmError Int :=
  let s := pyStrip imm_str
  match labels with
  | some ls =>
    if ls.isEmpty then numeric_value s
    else
      match ls.lookup s with
      | some a => Except.ok (if relative then (a : Int) - (current_addr : Int) else (a : Int))
      | none => numeric_value s
  | none => numeric_value s

/-- Python `\w` on ASCII input: letters, digits, underscore. -/
def isWordChar (c : Char) : Bool := c.isAlphanum || c = '_'

/-- Python `int(group or '0')` applied to the first capture group of the
memory-operand pattern (empty group means offset 0). -/
def memOffsetVal (cs : List Char) : Int :=
  match cs with
  | '-' :: ds => -(((digitsVal 10 ds).getD 0 : Nat) : Int)
  | ds => (((digitsVal 10 ds).getD 0 : Nat) : Int)

/-- Model of `re.match` with the memory-operand pattern: an optional
signed decimal offset, then a parenthesised nonempty run of word
characters.  `re.match` anchors only at the start, so any remaining
characters after the closing parenthesis are returned (and ignored by
the caller).  Returns `(offset, register token, rest)`. -/
def memOperandScan (s : List Char) : Option (Int × List Char × List Char) :=
  let p :=
    match s with
    | '-' :: t =>
      let q := t.span Char.isDigit
      if q.1.isEmpty then (([] : List Char), s) else ('-' :: q.1, q.2)
    | _ => s.span Char.isDigit
  match p.2 with
  | '(' :: t =>
    let q := t.span isWordChar
    if q.1.isEmpty then none
    else
      match q.2 with
      | ')' :: r3 => some (memOffsetVal p.1, q.1, r3)
      | _ => none
  | _ => none

/-- `parse_memory_operand`: regex scan of the stripped operand, then
register resolution of the captured name. -/
def parse_memory_operand (operand : List Char) : Except AsmError (Int × Nat) :=
  match memOperandScan (pyStrip operand) with
  | none => Except.error (AsmError.invalidMemoryOperand operand)
  | some (off, w, _) =>
    match parse_register w with
    | Except.error e => Except.error e
    | Except.ok reg => Except.ok (off, reg)

/-- `encode_r_type`: no field is masked. -/
def encode_r_type (opcode rd rs1 rs2 : Nat) : Nat :=
  (opcode <<< 26) ||| (rd <<< 21) ||| (rs1 <<< 16) ||| (rs2 <<< 11)

/-- `encode_i_type`: `imm & 0xFFFF` on a Python int is two's-complement
masking, i.e. `imm % 2^16`. -/
def encode_i_type (opcode rd rs1 : Nat) (imm : Int) : Nat :=
  (opcode <<< 26) ||| (rd <<< 21) ||| (rs1 <<< 16) ||| (imm % 65536).toNat

def encode_s_type (opcode rs2 rs1 : Nat) (offset : Int) : Nat :=
  (opcode <<< 26) ||| (rs2 <<< 21) ||| (rs1 <<< 16) ||| (offset % 65536).toNat

/-- `encode_b_type`: note that `rs2` lands in bits 25:21 and `rs1` in
bits 20:16, exactly as in the source. -/
def encode_b_type (opcode rs1 rs2 : Nat) (offset : Int) : Nat :=
  (opcode <<< 26) ||| (rs2 <<< 21) ||| (rs1 <<< 16) ||| (offset % 65536).toNat

/-- `encode_u_type`: `imm & 0x1FFFFF` is `imm % 2^21`. -/
def encode_u_type (opcode rd : Nat) (imm : Int) : Nat :=
  (opcode <<< 26) ||| (rd <<< 21) ||| (imm % 2097152).toNat

/-- `operands[i]`: a positional access that raises `IndexError` past the
end of the list. -/
def getOp (operands : List (List Char)) (i : Nat) : Except AsmError (List Char) :=
  match operands.get? i with
  | some t => Except.ok t
  | none => Except.error (AsmError.indexOutOfRange i)

/-- Error propagation for one Python sub-expression: a raised exception
aborts the surrounding statement, a value is passed on. -/
def bindE {α β : Type} (x : Except AsmError α) (f : α → Except AsmError β) :
    Except AsmError β :=
  match x with
  | Except.error e => Except.error e
  | Except.ok a => f a

/-- Body of `assemble_instruction` after the line has been split into
whitespace/comma-separated parts.  Sub-expressions are sequenced with
`bindE` in Python's left-to-right evaluation order.  In the opcode-table
match, the `some none` arm covers the four pseudo mnemonics mapped to
`None`; they are all handled before the table is consulted, and were one
to reach the dispatch it would fall through every format set to the
final "Unhandled instruction" raise, which is what the arm returns. -/
def assemble_parts (labels : LabelMap) (current_address : Nat)
    (parts : List (List Char)) (lineNum : Nat) : Except AsmError Nat :=
  bindE (getOp parts 0) fun p0 =>
  let mnemonic := pyUpper p0
  let operands := parts.drop 1
  if mnemonic = tl "NOP" then
    Except.ok (encode_i_type 0x01 0 0 0)
  else if mnemonic = tl "MV" then
    bindE (getOp operands 0) fun t0 =>
    bindE (parse_register t0) fun rd =>
    bindE (getOp operands 1) fun t1 =>
    bindE (parse_register t1) fun rs =>
    Except.ok (encode_i_type 0x01 rd rs 0)
  else if mnemonic = tl "LI" then
    bindE (getOp operands 0) fun t0 =>
    bindE (parse_register t0) fun rd =>
    bindE (getOp operands 1) fun t1 =>
    bindE (parse_immediate t1 none 0 false) fun imm =>
    if -32768 ≤ imm ∧ imm ≤ 32767 then
      Except.ok (encode_i_type 0x01 rd 0 imm)
    else Except.error (AsmError.liImmediateTooLarge imm)
  else if mnemonic = tl "J" then
    bindE (getOp operands 0) fun t0 =>
    bindE (parse_immediate t0 (some labels) current_address true) fun off =>
    Except.ok (encode_u_type 0x56 0 off)
  else
    match OPCODES.lookup mnemonic with
    | none => Except.error (AsmError.unknownInstruction mnemonic)
    | some none => Except.error (AsmError.unhandledInstruction mnemonic)
    | some (some opcode) =>
      if R_TYPE.contains mnemonic then
        if mnemonic = tl "NOT" then
          bindE (getOp operands 0) fun t0 =>
          bindE (parse_register t0) fun rd =>
          bindE (getOp operands 1) fun t1 =>
          bindE (parse_register t1) fun rs1 =>
          Except.ok (encode_r_type opcode rd rs1 0)
        else
          bindE (getOp operands 0) fun t0 =>
          bindE (parse_register t0) fun rd =>
          bindE (getOp operands 1) fun t1 =>
          bindE (parse_register t1) fun rs1 =>
          bindE (getOp operands 2) fun t2 =>
          bindE (parse_register t2) fun rs2 =>
          Except.ok (encode_r_type opcode rd rs1 rs2)
      else if I_TYPE.contains mnemonic then
        bindE (getOp operands 0) fun t0 =>
        bindE (parse_register t0) fun rd =>
        bindE (getOp operands 1) fun t1 =>
        bindE (parse_register t1) fun rs1 =>
        bindE (getOp operands 2) fun t2 =>
        bindE (parse_immediate t2 (some labels) 0 false) fun imm =>
        Except.ok (encode_i_type opcode rd rs1 imm)
      else if MEM_LOAD.contains mnemonic then
        bindE (getOp operands 0) fun t0 =>
        bindE (parse_register t0) fun rd =>
        bindE (getOp operands 1) fun t1 =>
        bindE (parse_memory_operand t1) fun or1 =>
        Except.ok (encode_i_type opcode rd or1.2 or1.1)
      else if MEM_STORE.contains mnemonic then
        bindE (getOp operands 0) fun t0 =>
        bindE (parse_register t0) fun rs2 =>
        bindE (getOp operands 1) fun t1 =>
        bindE (parse_memory_operand t1) fun or1 =>
        Except.ok (encode_s_type opcode rs2 or1.2 or1.1)
      else if B_TYPE.contains mnemonic then
        bindE (getOp operands 0) fun t0 =>
        bindE (parse_register t0) fun rs1 =>
        bindE (getOp operands 1) fun t1 =>
        bindE (parse_register t1) fun rs2 =>
        bindE (getOp operands 2) fun t2 =>
        bindE (parse_immediate t2 (some labels) current_address true) fun offset =>
        Except.ok (encode_b_type opcode rs1 rs2 offset)
      else if U_TYPE.contains mnemonic then
        if mnemonic = tl "JAL" then
          bindE (getOp operands 0) fun t0 =>
          bindE (parse_register t0) fun rd =>
          bindE (getOp operands 1) fun t1 =>
          bindE (parse_immediate t1 (some labels) current_address true) fun off =>
          Except.ok (encode_u_type opcode rd off)
        else
          bindE (getOp operands 0) fun t0 =>
          bindE (parse_register t0) fun rd =>
          bindE (getOp operands 1) fun t1 =>
          bindE (parse_immediate t1 (some labels) 0 false) fun imm =>
          Except.ok (encode_u_type opcode rd imm)
      else if CTRL_TYPE.contains mnemonic then
        Except.ok (opcode <<< 26)
      else if FPU_R2.contains mnemonic then
        bindE (getOp operands 0) fun t0 =>
        bindE (parse_register t0) fun rd =>
        bindE (getOp operands 1) fun t1 =>
        bindE (parse_register t1) fun rs1 =>
        bindE (getOp operands 2) fun t2 =>
        bindE (parse_register t2) fun rs2 =>
        Except.ok (encode_r_type opcode rd rs1 rs2)
      else if FPU_R1.contains mnemonic then
        bindE (getOp operands 0) fun t0 =>
        bindE (parse_register t0) fun rd =>
        bindE (getOp operands 1) fun t1 =>
        bindE (parse_register t1) fun rs1 =>
        Except.ok (encode_r_type opcode rd rs1 0)
      else if FPU_R3.contains mnemonic then
        bindE (getOp operands 0) fun t0 =>
        bindE (parse_register t0) fun rd =>
        bindE (getOp operands 1) fun t1 =>
        bindE (parse_register t1) fun rs1 =>
        bindE (getOp operands 2) fun t2 =>
        bindE (parse_register t2) fun rs2 =>
        bindE (getOp operands 3) fun t3 =>
        bindE (parse_register t3) fun rs3 =>
        Except.ok ((opcode <<< 26) ||| (rd <<< 21) ||| (rs1 <<< 16) ||| (rs2 <<< 11) ||| (rs3 <<< 6))
      else
        Except.error (AsmError.unhandledInstruction mnemonic)

/-- `assemble_instruction`: replace commas by spaces, split, dispatch. -/
def assemble_instruction (labels : LabelMap) (current_address : Nat)
    (line : List Char) (lineNum : Nat) : Except AsmError Nat :=
  assemble_parts labels current_address
    (splitWs (line.map (fun c => if c = ',' then ' ' else c))) lineNum

/-- `first_pass`: records labels and advances the address counter by 4 on
each instruction line.  Returns the label table and the final counter. -/
def first_pass_go : List (List Char) → Nat → LabelMap → LabelMap × Nat
  | [], addr, labels => (labels, addr)
  | l :: rest, addr, labels =>
    let line0 := pyStrip ((splitOnChar '#' l).headD [])
    if line0.isEmpty then first_pass_go rest addr labels
    else if line0.contains ':' then
      let labels1 := (pyStrip ((splitOnChar ':' line0).headD []), addr) :: labels
      let line1 := pyStrip (List.intercalate [':'] ((splitOnChar ':' line0).drop 1))
      if line1.isEmpty then first_pass_go rest addr labels1
      else if ['.'].isPrefixOf line1 then first_pass_go rest addr labels1
      else first_pass_go rest (addr + 4) labels1
    else if ['.'].isPrefixOf line0 then first_pass_go rest addr labels
    else first_pass_go rest (addr + 4) labels

/-- `second_pass` loop: same line scan as `first_pass`, but assembling
each instruction line at the current address.  The state is the 1-based
line number, the address counter and the emitted words; an error aborts
the run carrying the line number, the (processed) line text and the
underlying error, as printed by the handler before re-raising. -/
def second_pass_go (labels : LabelMap) : List (List Char) → Nat → Nat → List Nat →
    Except Diag (Nat × Nat × List Nat)
  | [], ln, addr, acc => Except.ok (ln, addr, acc)
  | l :: rest, ln, addr, acc =>
    let line0 := pyStrip ((splitOnChar '#' l).headD [])
    if line0.isEmpty then second_pass_go labels rest (ln + 1) addr acc
    else if line0.contains ':' then
      let line1 := pyStrip (List.intercalate [':'] ((splitOnChar ':' line0).drop 1))
      if line1.isEmpty then second_pass_go labels rest (ln + 1) addr acc
      else if ['.'].isPrefixOf line1 then second_pass_go labels rest (ln + 1) addr acc
      else
        match assemble_instruction labels addr line1 ln with
        | Except.ok c => second_pass_go labels rest (ln + 1) (addr + 4) (acc ++ [c])
        | Except.error e => Except.error (ln, line1, e)
    else if ['.'].isPrefixOf line0 then second_pass_go labels rest (ln + 1) addr acc
    else
      match assemble_instruction labels addr line0 ln with
      | Except.ok c => second_pass_go labels rest (ln + 1) (addr + 4) (acc ++ [c])
      | Except.error e => Except.error (ln, line0, e)

def second_pass (labels : LabelMap) (lines : List (List Char)) : Except Diag (List Nat) :=
  (second_pass_go labels lines 1 0 []).map (fun st => st.2.2)

/-- `assemble`: split the source into lines, run both passes. -/
def assemble (source : String) : Except Diag (List Nat) :=
  let lines := splitOnChar '\n' source.toList
  second_pass (first_pass_go lines 0 []).1 lines

/-- The sixteen lowercase hexadecimal digit characters. -/
def hexDigits : List Char := tl "0123456789abcdef"

def hexDigitChar (n : Nat) : Char := hexDigits.getD n '0'

/-- Fuel-driven base-16 digit expansion (most significant first),
modelling the digit production of Python's `format(n, 'x')`. -/
def natToHexCore : Nat → Nat → List Char → List Char
  | 0, _, ds => ds
  | fuel + 1, n, ds =>
    let d := hexDigitChar (n % 16)
    if n / 16 = 0 then d :: ds else natToHexCore fuel (n / 16) (d :: ds)

def natToHex (n : Nat) : List Char := natToHexCore (n + 1) n []

/-- Python `f'\x7bcode:08x\x7d'`: lowercase hex, left-padded with zeros
to a minimum of eight characters (longer values keep all digits). -/
def formatHex8 (code : Nat) : List Char :=
  let ds := natToHex code
  List.replicate (8 - ds.length) '0' ++ ds

/-- `to_hex`: newline-joined 8-digit-or-more hex words, in order. -/
def to_hex (machine_code : List Nat) : List Char :=
  List.intercalate ['\n'] (machine_code.map formatHex8)

/-- The line text that the pass-2 error handler prints for a raw source
line: comment-stripped, and label-stripped when a colon is present
(extracted from the pass-2 per-line processing, for stating what the
diagnostic carries). -/
def stripped_line_of (raw : List Char) : List Char :=
  let line0 := pyStrip ((splitOnChar '#' raw).headD [])
  if line0.contains ':' then pyStrip (List.intercalate [':'] ((splitOnChar ':' line0).drop 1))
  else line0

/-- Modelled from the spec's words for the memory-operand contract: the
WHOLE token (stripped) must have the shape optional-signed-integer,
parenthesised register, with the register a known alias; returns the
offset (default 0) and the register id, `none` on any mismatch.  Used
to compare the specified syntax against `parse_memory_operand`. -/
def memOperandSyntaxSpec (token : List Char) : Option (Int × Nat) :=
  match memOperandScan (pyStrip token) with
  | some (off, w, []) =>
    match REGISTERS.lookup (pyStrip (pyUpper w)) with
    | some r => some (off, r)
    | none => none
  | _ => none

/-! ## Helper lemmas about bit-field packing -/

theorem fields_low_false (a b c : Nat) (i : Nat) (hi : i < 16) :
    (a <<< 26 ||| b <<< 21 ||| c <<< 16).testBit i = false := by
  have h1 : (a <<< 26).testBit i = false := by
    rw [Nat.testBit_shiftLeft]
    simp [show ¬ (26 ≤ i) by omega]
  have h2 : (b <<< 21).testBit i = false := by
    rw [Nat.testBit_shiftLeft]
    simp [show ¬ (21 ≤ i) by omega]
  have h3 : (c <<< 16).testBit i = false := by
    rw [Nat.testBit_shiftLeft]
    simp [show ¬ (16 ≤ i) by omega]
  rw [Nat.testBit_or, Nat.testBit_or, h1, h2, h3]
  rfl

theorem fields_low_false_u (a b : Nat) (i : Nat) (hi : i < 21) :
    (a <<< 26 ||| b <<< 21).testBit i = false := by
  have h1 : (a <<< 26).testBit i = false := by
    rw [Nat.testBit_shiftLeft]
    simp [show ¬ (26 ≤ i) by omega]
  have h2 : (b <<< 21).testBit i = false := by
    rw [Nat.testBit_shiftLeft]
    simp [show ¬ (21 ≤ i) by omega]
  rw [Nat.testBit_or, h1, h2]
  rfl

/-- A value or-ed into the zero low `w` bits of `x` neither disturbs the
bits from `w` up nor is disturbed by them. -/
theorem orLow_spec (x m w : Nat) (hx : ∀ i, i < w → x.testBit i = false)
    (hm : m < 2 ^ w) :
    ((x ||| m) >>> w = x >>> w) ∧ ((x ||| m) % 2 ^ w = m) := by
  constructor
  · apply Nat.eq_of_testBit_eq
    intro i
    rw [Nat.testBit_shiftRight, Nat.testBit_shiftRight, Nat.testBit_or]
    have hmb : m.testBit (w + i) = false :=
      Nat.testBit_lt_two_pow
        (lt_of_lt_of_le hm (Nat.pow_le_pow_right (by norm_num) (Nat.le_add_right w i)))
    rw [hmb, Bool.or_false]
  · apply Nat.eq_of_testBit_eq
    intro i
    rw [Nat.testBit_mod_two_pow, Nat.testBit_or]
    by_cases h : i < w
    · simp [h, hx i h]
    · have hmb : m.testBit i = false :=
        Nat.testBit_lt_two_pow
          (lt_of_lt_of_le hm (Nat.pow_le_pow_right (by norm_num) (Nat.le_of_not_lt h)))
      simp [h, hmb]

/-! ## Claim theorems -/

/-- C1, counterexample: register inputs are NOT masked to their fields —
an out-of-range register id (32, in the 5-bit rd field) does not wrap
within its field, and alters the adjacent opcode field of the produced
word (the opcode field reads back 1 instead of 0). -/
theorem encode_field_mask_counterexample :
    encode_r_type 0 32 0 0 ≠ encode_r_type 0 0 0 0
    ∧ (encode_r_type 0 32 0 0) >>> 26 = 1 := ⟨by decide, by decide⟩

/-- C1, amended: in the I-, S-, B- and U-type encoders the
immediate/offset input (of either sign) is masked to its declared field:
it wraps modulo the field size, leaves all higher field bits exactly as
they are with immediate 0, and is recovered intact from the low bits of
the word.  (Opcode and register-id inputs, by contrast, are inserted
unmasked — see the counterexample.) -/
theorem imm_offset_fields_masked (opc rd rs1 : Nat) (imm : Int) :
    encode_i_type opc rd rs1 imm = encode_i_type opc rd rs1 (imm % 65536)
    ∧ encode_s_type opc rd rs1 imm = encode_s_type opc rd rs1 (imm % 65536)
    ∧ encode_b_type opc rd rs1 imm = encode_b_type opc rd rs1 (imm % 65536)
    ∧ encode_u_type opc rd imm = encode_u_type opc rd (imm % 2097152)
    ∧ encode_i_type opc rd rs1 imm >>> 16 = encode_i_type opc rd rs1 0 >>> 16
    ∧ encode_i_type opc rd rs1 imm % 65536 = (imm % 65536).toNat
    ∧ encode_s_type opc rd rs1 imm >>> 16 = encode_s_type opc rd rs1 0 >>> 16
    ∧ encode_b_type opc rd rs1 imm >>> 16 = encode_b_type opc rd rs1 0 >>> 16
    ∧ encode_u_type opc rd imm >>> 21 = encode_u_type opc rd 0 >>> 21
    ∧ encode_u_type opc rd imm % 2097152 = (imm % 2097152).toNat := by
  have hm : (imm % 65536).toNat < 65536 := by omega
  have hm2 : (imm % 2097152).toNat < 2097152 := by omega
  have e16 : (65536 : Nat) = 2 ^ 16 := by norm_num
  have e21 : (2097152 : Nat) = 2 ^ 21 := by norm_num
  have hz : ((0 : Int) % 65536).toNat = 0 := rfl
  have hz2 : ((0 : Int) % 2097152).toNat = 0 := rfl
  have hspec := orLow_spec (opc <<< 26 ||| rd <<< 21 ||| rs1 <<< 16)
    (imm % 65536).toNat 16 (fields_low_false opc rd rs1) (e16 ▸ hm)
  have hspecB := orLow_spec (opc <<< 26 ||| rs1 <<< 21 ||| rd <<< 16)
    (imm % 65536).toNat 16 (fields_low_false opc rs1 rd) (e16 ▸ hm)
  have hspec2 := orLow_spec (opc <<< 26 ||| rd <<< 21)
    (imm % 2097152).toNat 21 (fields_low_false_u opc rd) (e21 ▸ hm2)
  refine ⟨?_, ?_, ?_, ?_, ?_, ?_, ?_, ?_, ?_, ?_⟩
  · simp only [encode_i_type]; congr 1; omega
  · simp only [encode_s_type]; congr 1; omega
  · simp only [encode_b_type]; congr 1; omega
  · simp only [encode_u_type]; congr 1; omega
  · simp only [encode_i_type, hz, Nat.or_zero]; exact hspec.1
  · simp only [encode_i_type, e16]; exact hspec.2
  · simp only [encode_s_type, hz, Nat.or_zero]; exact hspec.1
  · simp only [encode_b_type, hz, Nat.or_zero]; exact hspecB.1
  · simp only [encode_u_type, hz2, Nat.or_zero]; exact hspec2.1
  · simp only [encode_u_type, e21]; exact hspec2.2

/-- C3, counterexample: `LW X1, 8(X2)` does NOT assemble to the claimed
word 0xC0221008; the code produces 0xC0220008 (opcode 0x30, rd 1, rs1 2,
imm16 8 — the claimed value would need imm16 = 0x1008). -/
theorem lw_example_counterexample :
    assemble "LW X1, 8(X2)" = Except.ok [0xC0220008]
    ∧ (0xC0220008 : Nat) ≠ 0xC0221008 := ⟨by decide, by decide⟩

/-- C3, amended: assembling the single line `LW X1, 8(X2)` succeeds and
produces exactly the word 0xC0220008. -/
theorem lw_example_word : assemble "LW X1, 8(X2)" = Except.ok [0xC0220008] := by decide

/-- C5: the two-instruction program under label `start` records the
label at address 0, emits no word for the label-only line (exactly two
words result), and produces [0x00221800, 0x04810001] in order. -/
theorem label_program_example :
    assemble "start:\n  ADD X1, X2, X3\n  ADDI X4, X1, 1"
      = Except.ok [0x00221800, 0x04810001]
    ∧ (first_pass_go (splitOnChar '\n'
        (tl "start:\n  ADD X1, X2, X3\n  ADDI X4, X1, 1")) 0 []).1
      = [(tl "start", 0)] := ⟨by decide, by decide⟩

/-- C7: with too few operands the code fails with an undifferentiated
indexing fault (Python `IndexError` from `operands[2]`), reported with
line context by the pass-2 handler — not with a distinct
`OperandCountMismatch` error as the spec requires. -/
theorem operand_count_index_fault :
    assemble "ADD X1, X2"
      = Except.error (1, tl "ADD X1, X2", AsmError.indexOutOfRange 2) := by decide

/-- C8, counterexample: the diagnostic carries the comment-stripped line
text, not the raw line text of the failing line. -/
theorem diagnostic_raw_text_counterexample :
    assemble "BADOP X1 # note"
      = Except.error (1, tl "BADOP X1", AsmError.unknownInstruction (tl "BADOP"))
    ∧ tl "BADOP X1" ≠ tl "BADOP X1 # note" := ⟨by decide, by decide⟩

/-- C9, counterexample: `parse_memory_operand` succeeds on a token that
is not of the specified syntax (trailing characters after the closing
parenthesis are accepted because `re.match` only anchors at the start),
and a token whose register is not a known alias fails with
`UnknownRegister`, not `InvalidMemoryOperand`. -/
theorem mem_operand_syntax_counterexample :
    parse_memory_operand (tl "8(X2)zz") = Except.ok (8, 2)
    ∧ memOperandSyntaxSpec (tl "8(X2)zz") = none
    ∧ parse_memory_operand (tl "(FOO)")
      = Except.error (AsmError.unknownRegister (tl "FOO")) :=
  ⟨by decide, by decide, by decide⟩

/-- C6: for any operand tokens resolving to register `rd` and immediate
`imm`, the pseudo-instruction `LI` encodes to ADDI (opcode 0x01) with
rd = rd, rs1 = 0, imm = imm exactly when −32768 ≤ imm ≤ 32767, and
otherwise fails with the LI range error. -/
theorem li_range_check (rdTok immTok : List Char) (L : LabelMap) (addr ln : Nat)
    (rd : Nat) (imm : Int)
    (hr : parse_register rdTok = Except.ok rd)
    (hi : parse_immediate immTok none 0 false = Except.ok imm) :
    assemble_parts L addr [tl "LI", rdTok, immTok] ln =
      if -32768 ≤ imm ∧ imm ≤ 32767 then Except.ok (encode_i_type 1 rd 0 imm)
      else Except.error (AsmError.liImmediateTooLarge imm) := by
  have hstep : assemble_parts L addr [tl "LI", rdTok, immTok] ln =
      (bindE (parse_register rdTok) fun rd =>
        bindE (parse_immediate immTok none 0 false) fun imm =>
        if -32768 ≤ imm ∧ imm ≤ 32767 then Except.ok (encode_i_type 1 rd 0 imm)
        else Except.error (AsmError.liImmediateTooLarge imm)) := rfl
  rw [hstep]
  simp only [hr, hi, bindE]

/-- C6, witness: `LI X1, 40000` is out of range and fails with the LI
range error. -/
theorem li_range_check_witness :
    assemble_parts [] 0 [tl "LI", tl "X1", tl "40000"] 1 =
      Except.error (AsmError.liImmediateTooLarge 40000) := by
  have h := li_range_check (tl "X1") (tl "40000") [] 0 1 1 40000 (by decide) (by decide)
  rw [if_neg (by omega)] at h
  exact h

/-- C10: in `parse_immediate`, label lookup takes precedence over
numeric parsing — a token that is both a key of the supplied non-empty
label table and a valid numeric literal resolves to the label's
recorded address (minus the current address when relative), never to
the literal's numeric value. -/
theorem label_precedence_in_immediate (tok : List Char) (ls : LabelMap)
    (cur : Nat) (rel : Bool) (a : Nat)
    (hl : ls.lookup (pyStrip tok) = some a)
    (hnum : ∃ v, numeric_value (pyStrip tok) = Except.ok v) :
    parse_immediate tok (some ls) cur rel =
      Except.ok (if rel then (a : Int) - (cur : Int) else (a : Int)) := by
  have hne : ls.isEmpty = false := by
    cases ls with
    | nil => simp at hl
    | cons x xs => rfl
  simp only [parse_immediate, hne, Bool.false_eq_true, if_false, hl]

/-- C10, witness: a label literally named `12` with recorded address 8
resolves to 8, not to the numeric value 12. -/
theorem label_precedence_in_immediate_witness :
    parse_immediate (tl "12") (some [(tl "12", 8)]) 0 false = Except.ok 8
    ∧ (8 : Int) ≠ 12 := by
  have h := label_precedence_in_immediate (tl "12") [(tl "12", 8)] 0 false 8
    (by decide) ⟨12, by decide⟩
  exact ⟨by simpa using h, by decide⟩

/-- C9, amended: `parse_memory_operand` succeeds, with the parsed offset
(default 0) and register id, on every token the specified whole-token
syntax accepts; but the regex is matched only as a prefix, so failure is
not equivalent to syntax mismatch: any failure is either
`InvalidMemoryOperand` (no prefix of the stripped token matches the
pattern) or `UnknownRegister` (the pattern matched but the captured name
is not a known alias), and in either case the token is not of the
specified syntax. -/
theorem mem_operand_scan_behavior (token : List Char) :
    (∀ off r, memOperandSyntaxSpec token = some (off, r) →
      parse_memory_operand token = Except.ok (off, r))
    ∧ (∀ e, parse_memory_operand token = Except.error e →
        memOperandSyntaxSpec token = none
        ∧ ∃ s, e = AsmError.invalidMemoryOperand s ∨ e = AsmError.unknownRegister s) := by
  constructor
  · intro off r hs
    unfold memOperandSyntaxSpec at hs
    cases hscan : memOperandScan (pyStrip token) with
    | none => rw [hscan] at hs; exact absurd hs (by simp)
    | some v =>
      obtain ⟨o, w, rest⟩ := v
      rw [hscan] at hs
      cases rest with
      | cons a as => exact absurd hs (by simp)
      | nil =>
        simp only [] at hs
        cases hl : REGISTERS.lookup (pyStrip (pyUpper w)) with
        | none => simp only [hl] at hs; exact Option.noConfusion hs
        | some r2 =>
          simp only [hl, Option.some.injEq, Prod.mk.injEq] at hs
          obtain ⟨h1, h2⟩ := hs
          simp only [parse_memory_operand, hscan, parse_register, hl]
          rw [h1, h2]
  · intro e he
    unfold parse_memory_operand at he
    unfold memOperandSyntaxSpec
    cases hscan : memOperandScan (pyStrip token) with
    | none =>
      rw [hscan] at he
      simp only [Except.error.injEq] at he
      exact ⟨rfl, token, Or.inl he.symm⟩
    | some v =>
      obtain ⟨o, w, rest⟩ := v
      rw [hscan] at he
      simp only [] at he
      cases hpr : parse_register w with
      | ok reg => simp only [hpr] at he; exact Except.noConfusion he
      | error e2 =>
        simp only [hpr, Except.error.injEq] at he
        unfold parse_register at hpr
        cases hl : REGISTERS.lookup (pyStrip (pyUpper w)) with
        | some v2 => simp only [hl] at hpr; exact Except.noConfusion hpr
        | none =>
          simp only [hl, Except.error.injEq] at hpr
          constructor
          · cases rest with
            | nil => simp only [hl]
            | cons a as => rfl
          · exact ⟨pyStrip (pyUpper w), Or.inr (by rw [← he, ← hpr])⟩

/-- C9, witness: a token exactly of the specified syntax parses to its
offset and register id. -/
theorem mem_operand_scan_behavior_witness :
    parse_memory_operand (tl "8(X2)") = Except.ok (8, 2) :=
  (mem_operand_scan_behavior (tl "8(X2)")).1 8 2 (by decide)

theorem hexDigitChar_mem (m : Nat) : hexDigitChar m ∈ hexDigits := by
  unfold hexDigitChar
  rcases h : hexDigits.get? m with _ | c
  · rw [List.getD_eq_get?, h]
    decide
  · rw [List.getD_eq_get?, h]
    exact List.get?_mem h

theorem natToHexCore_length (fuel : Nat) :
    ∀ k n ds, n < 16 ^ (k + 1) → n < fuel →
      (natToHexCore fuel n ds).length ≤ k + 1 + ds.length := by
  induction fuel with
  | zero => intro k n ds h hf; omega
  | succ f ih =>
    intro k n ds h hf
    simp only [natToHexCore]
    by_cases hz : n / 16 = 0
    · simp only [hz, if_pos]
      simp only [List.length_cons]
      omega
    · rw [if_neg hz]
      cases k with
      | zero =>
        exfalso
        have h16 : n < 16 := by simpa using h
        omega
      | succ k2 =>
        have h1 : n / 16 < 16 ^ (k2 + 1) := by
          apply Nat.div_lt_of_lt_mul
          calc n < 16 ^ (k2 + 2) := h
            _ = 16 * 16 ^ (k2 + 1) := by ring
        have h2 : n / 16 < f := by
          have hlt : n / 16 < n := Nat.div_lt_self (by omega) (by norm_num)
          omega
        have := ih k2 (n / 16) (hexDigitChar (n % 16) :: ds) h1 h2
        simp only [List.length_cons] at this
        omega

theorem natToHexCore_mem (fuel : Nat) :
    ∀ n ds, (∀ c ∈ ds, c ∈ hexDigits) → ∀ c ∈ natToHexCore fuel n ds, c ∈ hexDigits := by
  induction fuel with
  | zero => intro n ds hds c hc; exact hds c hc
  | succ f ih =>
    intro n ds hds c hc
    simp only [natToHexCore] at hc
    by_cases hz : n / 16 = 0
    · rw [if_pos hz] at hc
      rcases List.mem_cons.mp hc with hc | hc
      · exact hc ▸ hexDigitChar_mem (n % 16)
      · exact hds c hc
    · rw [if_neg hz] at hc
      refine ih (n / 16) (hexDigitChar (n % 16) :: ds) ?_ c hc
      intro c2 hc2
      rcases List.mem_cons.mp hc2 with hc2 | hc2
      · exact hc2 ▸ hexDigitChar_mem (n % 16)
      · exact hds c2 hc2

/-- C4, counterexample: `LUI` (table opcode 0x69 > 6 bits) produces a
Machine Word that is NOT a 32-bit value, and the plain-hex formatter
renders it as nine hex digits, not eight. -/
theorem machine_word_32bit_counterexample :
    assemble "LUI X1, 0" = Except.ok [7048527872]
    ∧ 4294967296 ≤ 7048527872
    ∧ (formatHex8 7048527872).length = 9
    ∧ to_hex [7048527872] = tl "1a4200000" :=
  ⟨by decide, by norm_num, by decide, by decide⟩

/-- C4, amended: every Machine Word that IS below 2^32 (as all words
from mnemonics whose table opcode fits in 6 bits are) is rendered by the
plain-hex formatter as exactly one lowercase, zero-padded 8-hex-digit
line, and the output joins the per-word renderings in order; words from
the mnemonics with table opcode beyond 6 bits exceed 2^32 and render
with more than 8 digits (see the counterexample). -/
theorem to_hex_words_in_range (machine_code : List Nat)
    (h : ∀ w ∈ machine_code, w < 4294967296) :
    to_hex machine_code = List.intercalate ['\n'] (machine_code.map formatHex8)
    ∧ ∀ w ∈ machine_code, (formatHex8 w).length = 8
      ∧ ∀ c ∈ formatHex8 w, c ∈ hexDigits := by
  refine ⟨rfl, ?_⟩
  intro w hw
  have hlen : (natToHex w).length ≤ 8 := by
    have h8 : w < 16 ^ 8 := by
      have := h w hw
      omega
    have := natToHexCore_length (w + 1) 7 w [] (by simpa using h8) (by omega)
    simpa using this
  constructor
  · simp only [formatHex8, List.length_append, List.length_replicate]
    omega
  · intro c hc
    simp only [formatHex8] at hc
    rcases List.mem_append.mp hc with hrep | hdig
    · have : c = '0' := List.eq_of_mem_replicate hrep
      rw [this]; decide
    · exact natToHexCore_mem (w + 1) w [] (by intro c2 hc2; exact absurd hc2 (List.not_mem_nil c2)) c hdig

/-- C4, witness: a word below 2^32 renders as one 8-digit lowercase hex
line. -/
theorem to_hex_words_in_range_witness :
    to_hex [2234368] = List.intercalate ['\n'] ([2234368].map formatHex8)
    ∧ ∀ w ∈ [2234368], (formatHex8 w).length = 8
      ∧ ∀ c ∈ formatHex8 w, c ∈ hexDigits :=
  to_hex_words_in_range [2234368] (by decide)

/-- C2: the two passes traverse the line sequence identically.  Whenever
pass 2 has successfully processed a prefix of the program (reaching the
state in which it assembles the next instruction line, whose relative
offsets it computes with `current_address`), its address counter equals
the address counter pass 1 has after scanning the same prefix from the
same start (for any label table, which the pass-1 counter ignores), and
its line counter has advanced by exactly the number of lines scanned.
Since a label is recorded by pass 1 at the pass-1 counter and pass 2
resolves labels from that table, the address recorded for a label equals
the address pass 2 attributes to the labelled instruction line. -/
theorem pass_address_agreement (pre : List (List Char)) :
    ∀ (L E : LabelMap) (ln addr : Nat) (acc : List Nat) (ln2 addr2 : Nat) (acc2 : List Nat),
    second_pass_go L pre ln addr acc = Except.ok (ln2, addr2, acc2) →
    addr2 = (first_pass_go pre addr E).2 ∧ ln2 = ln + pre.length := by
  induction pre with
  | nil =>
    intro L E ln addr acc ln2 addr2 acc2 h
    simp only [second_pass_go, Except.ok.injEq, Prod.mk.injEq] at h
    obtain ⟨h1, h2, h3⟩ := h
    simp only [first_pass_go, List.length_nil]
    exact ⟨h2.symm, by omega⟩
  | cons l rest ih =>
    intro L E ln addr acc ln2 addr2 acc2 h
    simp only [second_pass_go] at h
    simp only [first_pass_go, List.length_cons]
    by_cases h0 : (pyStrip ((splitOnChar '#' l).headD [])).isEmpty = true
    · rw [if_pos h0] at h
      rw [if_pos h0]
      obtain ⟨ha, hl⟩ := ih L E (ln + 1) addr acc ln2 addr2 acc2 h
      exact ⟨ha, by omega⟩
    · rw [if_neg h0] at h
      rw [if_neg h0]
      by_cases hc : (pyStrip ((splitOnChar '#' l).headD [])).contains ':' = true
      · rw [if_pos hc] at h
        rw [if_pos hc]
        by_cases h1 : (pyStrip (List.intercalate [':']
            ((splitOnChar ':' (pyStrip ((splitOnChar '#' l).headD []))).drop 1))).isEmpty = true
        · rw [if_pos h1] at h
          rw [if_pos h1]
          obtain ⟨ha, hl⟩ := ih L _ (ln + 1) addr acc ln2 addr2 acc2 h
          exact ⟨ha, by omega⟩
        · rw [if_neg h1] at h
          rw [if_neg h1]
          by_cases hd : ['.'].isPrefixOf (pyStrip (List.intercalate [':']
              ((splitOnChar ':' (pyStrip ((splitOnChar '#' l).headD []))).drop 1))) = true
          · rw [if_pos hd] at h
            rw [if_pos hd]
            obtain ⟨ha, hl⟩ := ih L _ (ln + 1) addr acc ln2 addr2 acc2 h
            exact ⟨ha, by omega⟩
          · rw [if_neg hd] at h
            rw [if_neg hd]
            split at h
            · obtain ⟨ha, hl⟩ := ih L _ (ln + 1) (addr + 4) _ ln2 addr2 acc2 h
              exact ⟨ha, by omega⟩
            · exact Except.noConfusion h
      · rw [if_neg hc] at h
        rw [if_neg hc]
        by_cases hd : ['.'].isPrefixOf (pyStrip ((splitOnChar '#' l).headD [])) = true
        · rw [if_pos hd] at h
          rw [if_pos hd]
          obtain ⟨ha, hl⟩ := ih L E (ln + 1) addr acc ln2 addr2 acc2 h
          exact ⟨ha, by omega⟩
        · rw [if_neg hd] at h
          rw [if_neg hd]
          split at h
          · obtain ⟨ha, hl⟩ := ih L E (ln + 1) (addr + 4) _ ln2 addr2 acc2 h
            exact ⟨ha, by omega⟩
          · exact Except.noConfusion h

/-- C2, witness: on a four-line program with a label, a comment line and
a directive, pass 2 succeeds and its final address and line counters
agree with pass 1. -/
theorem pass_address_agreement_witness :
    second_pass_go []
        [tl "start: ADD X1, X2, X3", tl "# c", tl ".word 0", tl "ADDI X4, X1, 1"]
        1 0 []
      = Except.ok (5, 8, [2234368, 75563009])
    ∧ 8 = (first_pass_go
        [tl "start: ADD X1, X2, X3", tl "# c", tl ".word 0", tl "ADDI X4, X1, 1"]
        0 []).2
    ∧ 5 = 1 + 4 := by
  have h := pass_address_agreement
    [tl "start: ADD X1, X2, X3", tl "# c", tl ".word 0", tl "ADDI X4, X1, 1"]
    [] [] 1 0 [] 5 8 [2234368, 75563009] (by decide)
  exact ⟨by decide, h.1, by omega⟩


/-- C8, amended: when pass 2 fails, the whole run returns an error (so
no word sequence is produced), the reported diagnostic identifies some
source line `raw` by its 1-based number, every earlier line was scanned
without error (the prefix before the failing line completes normally:
the abort happens at the first error), the diagnostic's line text is the
comment-stripped, label-stripped form of `raw` — not the raw text — and
the underlying error is exactly the one `assemble_instruction` raises on
that text at the pass-2 address. -/
theorem abort_first_error_diagnostic (lines : List (List Char)) :
    ∀ (L : LabelMap) (ln addr : Nat) (acc : List Nat) (d : Diag),
    second_pass_go L lines ln addr acc = Except.error d →
    ∃ k raw, lines.get? k = some raw ∧ d.1 = ln + k ∧
      d.2.1 = stripped_line_of raw ∧
      ∃ addr2 acc2,
        second_pass_go L (lines.take k) ln addr acc = Except.ok (ln + k, addr2, acc2)
        ∧ assemble_instruction L addr2 d.2.1 d.1 = Except.error d.2.2 := by
  induction lines with
  | nil =>
    intro L ln addr acc d h
    exact Except.noConfusion h
  | cons l rest ih =>
    intro L ln addr acc d h
    simp only [second_pass_go] at h
    by_cases h0 : (pyStrip ((splitOnChar '#' l).headD [])).isEmpty = true
    · rw [if_pos h0] at h
      obtain ⟨k, raw, hget, hd1, hd2, addr2, acc2, hok, herr⟩ :=
        ih L (ln + 1) addr acc d h
      refine ⟨k + 1, raw, by simpa using hget, by omega, hd2, addr2, acc2, ?_, herr⟩
      simp only [List.take_succ_cons, second_pass_go]
      rw [if_pos h0]
      rw [show ln + (k + 1) = (ln + 1) + k by omega]
      exact hok
    · rw [if_neg h0] at h
      by_cases hc : (pyStrip ((splitOnChar '#' l).headD [])).contains ':' = true
      · rw [if_pos hc] at h
        by_cases h1 : (pyStrip (List.intercalate [':']
            ((splitOnChar ':' (pyStrip ((splitOnChar '#' l).headD []))).drop 1))).isEmpty = true
        · rw [if_pos h1] at h
          obtain ⟨k, raw, hget, hd1, hd2, addr2, acc2, hok, herr⟩ :=
            ih L (ln + 1) addr acc d h
          refine ⟨k + 1, raw, by simpa using hget, by omega, hd2, addr2, acc2, ?_, herr⟩
          simp only [List.take_succ_cons, second_pass_go]
          rw [if_neg h0, if_pos hc, if_pos h1]
          rw [show ln + (k + 1) = (ln + 1) + k by omega]
          exact hok
        · rw [if_neg h1] at h
          by_cases hd : ['.'].isPrefixOf (pyStrip (List.intercalate [':']
              ((splitOnChar ':' (pyStrip ((splitOnChar '#' l).headD []))).drop 1))) = true
          · rw [if_pos hd] at h
            obtain ⟨k, raw, hget, hd1, hd2, addr2, acc2, hok, herr⟩ :=
              ih L (ln + 1) addr acc d h
            refine ⟨k + 1, raw, by simpa using hget, by omega, hd2, addr2, acc2, ?_, herr⟩
            simp only [List.take_succ_cons, second_pass_go]
            rw [if_neg h0, if_pos hc, if_neg h1, if_pos hd]
            rw [show ln + (k + 1) = (ln + 1) + k by omega]
            exact hok
          · rw [if_neg hd] at h
            cases hA : assemble_instruction L addr (pyStrip (List.intercalate [':']
                ((splitOnChar ':' (pyStrip ((splitOnChar '#' l).headD []))).drop 1))) ln with
            | ok c =>
              rw [hA] at h
              simp only [] at h
              obtain ⟨k, raw, hget, hd1, hd2, addr2, acc2, hok, herr⟩ :=
                ih L (ln + 1) (addr + 4) (acc ++ [c]) d h
              refine ⟨k + 1, raw, by simpa using hget, by omega, hd2, addr2, acc2, ?_, herr⟩
              simp only [List.take_succ_cons, second_pass_go]
              rw [if_neg h0, if_pos hc, if_neg h1, if_neg hd, hA]
              rw [show ln + (k + 1) = (ln + 1) + k by omega]
              exact hok
            | error e =>
              rw [hA] at h
              simp only [] at h
              obtain rfl : d = (ln, pyStrip (List.intercalate [':']
                  ((splitOnChar ':' (pyStrip ((splitOnChar '#' l).headD []))).drop 1)), e) :=
                (Except.error.inj h).symm
              refine ⟨0, l, rfl, by omega, ?_, addr, acc, ?_, ?_⟩
              · simp only [stripped_line_of]
                rw [if_pos hc]
              · simp only [List.take_zero, second_pass_go, Nat.add_zero]
              · simpa using hA
      · rw [if_neg hc] at h
        by_cases hd : ['.'].isPrefixOf (pyStrip ((splitOnChar '#' l).headD [])) = true
        · rw [if_pos hd] at h
          obtain ⟨k, raw, hget, hd1, hd2, addr2, acc2, hok, herr⟩ :=
            ih L (ln + 1) addr acc d h
          refine ⟨k + 1, raw, by simpa using hget, by omega, hd2, addr2, acc2, ?_, herr⟩
          simp only [List.take_succ_cons, second_pass_go]
          rw [if_neg h0, if_neg hc, if_pos hd]
          rw [show ln + (k + 1) = (ln + 1) + k by omega]
          exact hok
        · rw [if_neg hd] at h
          cases hA : assemble_instruction L addr (pyStrip ((splitOnChar '#' l).headD [])) ln with
          | ok c =>
            rw [hA] at h
            simp only [] at h
            obtain ⟨k, raw, hget, hd1, hd2, addr2, acc2, hok, herr⟩ :=
              ih L (ln + 1) (addr + 4) (acc ++ [c]) d h
            refine ⟨k + 1, raw, by simpa using hget, by omega, hd2, addr2, acc2, ?_, herr⟩
            simp only [List.take_succ_cons, second_pass_go]
            rw [if_neg h0, if_neg hc, if_neg hd, hA]
            rw [show ln + (k + 1) = (ln + 1) + k by omega]
            exact hok
          | error e =>
            rw [hA] at h
            simp only [] at h
            obtain rfl : d = (ln, pyStrip ((splitOnChar '#' l).headD []), e) :=
              (Except.error.inj h).symm
            refine ⟨0, l, rfl, by omega, ?_, addr, acc, ?_, ?_⟩
            · simp only [stripped_line_of]
              rw [if_neg hc]
            · simp only [List.take_zero, second_pass_go, Nat.add_zero]
            · simpa using hA

/-- C8, witness: the one-line program `BADOP` fails, and the diagnostic
satisfies the characterisation (line 1, stripped text, underlying
unknown-instruction error, empty successfully-scanned prefix). -/
theorem abort_first_error_diagnostic_witness :
    ∃ k raw, [tl "BADOP"].get? k = some raw
      ∧ (1, tl "BADOP", AsmError.unknownInstruction (tl "BADOP")).1 = 1 + k
      ∧ (1, tl "BADOP", AsmError.unknownInstruction (tl "BADOP")).2.1 = stripped_line_of raw
      ∧ ∃ addr2 acc2,
        second_pass_go [] ([tl "BADOP"].take k) 1 0 [] = Except.ok (1 + k, addr2, acc2)
        ∧ assemble_instruction [] addr2
            (1, tl "BADOP", AsmError.unknownInstruction (tl "BADOP")).2.1
            (1, tl "BADOP", AsmError.unknownInstruction (tl "BADOP")).1
          = Except.error (1, tl "BADOP", AsmError.unknownInstruction (tl "BADOP")).2.2 :=
  abort_first_error_diagnostic [tl "BADOP"] [] 1 0 []
    (1, tl "BADOP", AsmError.unknownInstruction (tl "BADOP")) (by decide)
